import Mathlib

/-!
Verification of the HTTP orchestration layer in `src/app.py` (a FastAPI
façade over a haystack document store and extractive-QA pipeline).

The six request handlers of `app.py` are shallowly embedded as pure Lean
functions.  The external capabilities (the OpenSearch document store, the
BM25 retriever, the FARM reader and the extractive-QA pipeline) are not part
of this repository; where a handler's behaviour depends on them they are
modelled from the specification, each such definition carrying a doc comment
that starts with `Modelled from the spec:`.
-/

namespace App

/-- Embeds the pydantic request model `Document` (src/app.py lines 30-33):
an optional `name` (default `None`) and a required `content` string.  The
structure itself records the shape validation pydantic performs: `content`
must be present, `name` may be absent, and no further (semantic) check is
made on either string. -/
structure Document where
  name : Option String := none
  content : String
deriving DecidableEq, Repr

/-- Embeds the pydantic request model `Query` (src/app.py lines 35-37):
a required `question` string. -/
structure Query where
  question : String
deriving DecidableEq, Repr

/-- Embeds `haystack.schema.Document` as constructed by `save_document`
(src/app.py line 56): a `content` string and a metadata dictionary holding
the single key `"name"` (whose value is the request's optional name, possibly
null).  The `id` is produced outside this repository (the haystack
constructor / store).  Modelled from the spec: `id` is "assigned by the store
on write, opaque string"; it is embedded as a store counter rendered as a
string, which is fresh whenever the store's existing identifiers avoid it. -/
structure HaystackDocument where
  id : String
  content : String
  meta_name : Option String
deriving DecidableEq, Repr

/-- Modelled from the spec: the document store capability ("persists
documents, fetches by identifier, lists all documents, performs keyword
search"; not part of src/ — it is the external `OpenSearchDocumentStore`).
State is the sequence of persisted records plus the counter used to assign
fresh opaque identifiers on write. -/
structure DocumentStore where
  docs : List HaystackDocument
  nextId : Nat
deriving DecidableEq, Repr

/-- Modelled from the spec: store fetch by identifier — returns the persisted
record with the given identifier, or null when no record has it. -/
def DocumentStore.get_document_by_id (st : DocumentStore) (document_id : String) :
    Option HaystackDocument :=
  st.docs.find? (fun d => d.id == document_id)

/-- Modelled from the spec: store write — persists each given record,
assigning identifiers from the store counter.  `save_document` only ever
passes a single record. -/
def DocumentStore.write_documents (st : DocumentStore) (ds : List HaystackDocument) :
    DocumentStore :=
  { docs := st.docs ++ ds, nextId := st.nextId + ds.length }

/-- Modelled from the spec: store list-all — the raw reply of
`get_all_documents()`.  The spec allows the store to "report an empty/null
result", so the handler below is embedded over an `Option` reply; the store
modelled here always replies with the full (possibly empty) sequence. -/
def DocumentStore.get_all_documents (st : DocumentStore) :
    Option (List HaystackDocument) :=
  some st.docs

/-- Modelled from the spec: store keyword search — "sequence of matching
Document records, ranked by the store's relevance function".  The matching
and ranking are owned by the external store; they are modelled as returning
all documents in store order.  The reply is an `Option` because the handler
passes the raw store reply through without any null check. -/
def DocumentStore.query (st : DocumentStore) (_keyword : String) :
    Option (List HaystackDocument) :=
  some st.docs

/-- Modelled from the spec: an Answer record — "an extracted text span with a
confidence score and provenance (source document reference, offset)",
produced by the external reading-comprehension capability. -/
structure Answer where
  answer : String
  score : Nat
  context : String
  document_id : String
deriving DecidableEq, Repr

/-- Embeds the `x.to_dict()` serialization applied by `ask_document`
(src/app.py line 83): each answer is flattened into a record of text, score
and provenance. -/
structure AnswerDict where
  answer : String
  score : Nat
  context : String
  document_id : String
deriving DecidableEq, Repr

def Answer.to_dict (a : Answer) : AnswerDict :=
  { answer := a.answer, score := a.score, context := a.context,
    document_id := a.document_id }

/-- Response bodies the handlers of src/app.py can produce, each constructor
standing for the JSON value the Python return value serializes to:
`statusOk` is `{"status": "ok"}`, `errorMsg m` is `{"error": m}`,
`idOf i` is `{"id": i}`, `document`/`documents` are a record / an array of
records, `answers` is an array of serialized answer records, and `null` is
the JSON null produced when a handler returns Python `None` verbatim. -/
inductive Body where
  | statusOk
  | errorMsg (msg : String)
  | idOf (id : String)
  | document (d : HaystackDocument)
  | documents (ds : List HaystackDocument)
  | answers (as : List AnswerDict)
  | null
deriving DecidableEq, Repr

/-- An HTTP response: status code plus serialized body. -/
structure HttpResponse where
  status : Nat
  body : Body
deriving DecidableEq, Repr

/-- Serialization of a raw store reply returned verbatim by a handler:
Python `None` becomes JSON null, a list becomes an array of records. -/
def bodyOfReply : Option (List HaystackDocument) → Body
  | none => Body.null
  | some ds => Body.documents ds

/-- Embeds `health` (src/app.py lines 39-42): returns `{"status": "ok"}`
with the default status 200. -/
def health : HttpResponse :=
  { status := 200, body := Body.statusOk }

/-- Embeds `get_document` (src/app.py lines 44-51): look the identifier up in
the store; on a null reply set status 404 and return the structured error
body, otherwise return the record with status 200. -/
def get_document (document_store : DocumentStore) (document_id : String) :
    HttpResponse :=
  match document_store.get_document_by_id document_id with
  | none => { status := 404, body := Body.errorMsg "Document not found" }
  | some document => { status := 200, body := Body.document document }

/-- Embeds `save_document` (src/app.py lines 53-58): build a haystack record
whose content is the request content and whose metadata is
`{"name": document.name}` (the key is always written, its value possibly
null), write that single record to the store, and reply 201 with
`{"id": new_doc.id}`. -/
def save_document (document_store : DocumentStore) (document : Document) :
    DocumentStore × HttpResponse :=
  let new_doc : HaystackDocument :=
    { id := toString document_store.nextId, content := document.content,
      meta_name := document.name }
  let store' := document_store.write_documents [new_doc]
  (store', { status := 201, body := Body.idOf new_doc.id })

/-- Embeds `get_all_document` (src/app.py lines 60-67) over the raw reply of
`document_store.get_all_documents()`: on a null reply set status 404 and
return the structured error body, otherwise return the sequence with
status 200.  There is no emptiness check. -/
def get_all_document (documents : Option (List HaystackDocument)) :
    HttpResponse :=
  match documents with
  | none => { status := 404, body := Body.errorMsg "Documents not found" }
  | some ds => { status := 200, body := Body.documents ds }

/-- Embeds `search_document` (src/app.py lines 69-73) over the raw reply of
`document_store.query(query)`: the reply is returned verbatim with the
default status 200; no null or emptiness check of any kind. -/
def search_document (documents : Option (List HaystackDocument)) :
    HttpResponse :=
  { status := 200, body := bodyOfReply documents }

/-- Modelled from the spec: the retrieval capability — "given a query,
returns a ranked list of candidate documents", at most `top_k` of them
(not part of src/ — it is the external `BM25Retriever`).  The lexical
ranking itself is owned by the external component and is modelled as store
order. -/
def BM25Retriever.retrieve (document_store : DocumentStore) (_query : String)
    (top_k : Nat) : List HaystackDocument :=
  document_store.docs.take top_k

/-- Modelled from the spec: the reading-comprehension capability — "given a
query and candidate documents, returns extracted answer spans with scores",
the best `top_k` of them (not part of src/ — it is the external
`FARMReader`).  Span location is owned by the external model; it is modelled
as taking the candidate's content as the span. -/
def FARMReader.predict (_question : String) (documents : List HaystackDocument)
    (top_k : Nat) : List Answer :=
  (documents.map (fun d =>
    { answer := d.content, score := 0, context := d.content,
      document_id := d.id })).take top_k

/-- Modelled from the spec: `ExtractiveQAPipeline.run` — step 1 submits the
question to the retrieval capability with its `top_k`, step 2 submits the
question and the retrieved candidates to the reading capability with its
`top_k` (not part of src/ — it is the external haystack pipeline). -/
def pipeline_run (document_store : DocumentStore) (query : String)
    (retriever_top_k reader_top_k : Nat) : List Answer :=
  FARMReader.predict query
    (BM25Retriever.retrieve document_store query retriever_top_k)
    reader_top_k

/-- Embeds `ask_document` (src/app.py lines 75-84): run the extractive-QA
pipeline on the question with the fixed constants `top_k = 10` for the
retriever and `top_k = 1` for the reader, serialize each answer with
`to_dict`, and return the sequence with the default status 200. -/
def ask_document (document_store : DocumentStore) (query : Query) :
    HttpResponse :=
  let result := pipeline_run document_store query.question 10 1
  { status := 200, body := Body.answers (result.map Answer.to_dict) }

/-- The six requests the HTTP surface accepts. -/
inductive Request where
  | health
  | getDoc (document_id : String)
  | saveDoc (document : Document)
  | listAll
  | search (query : String)
  | ask (query : Query)
deriving DecidableEq, Repr

/-- One request dispatched against the process-wide store handle: each
handler of src/app.py composed with the store capability it invokes, paired
with the store state after the request.  Only `save_document` writes; every
other handler only reads. -/
def handle (st : DocumentStore) : Request → DocumentStore × HttpResponse
  | Request.health => (st, health)
  | Request.getDoc i => (st, get_document st i)
  | Request.saveDoc d => save_document st d
  | Request.listAll => (st, get_all_document st.get_all_documents)
  | Request.search q => (st, search_document (st.query q))
  | Request.ask q => (st, ask_document st q)

/-- Capability constructions observable in src/app.py: the store handle
built at module level (lines 22-28), and the retriever and reader built
inside the ask handler (lines 79-80). -/
inductive InitEvent where
  | storeInit
  | retrieverInit
  | readerInit
deriving DecidableEq, Repr

/-- Embeds the module-level startup of src/app.py (lines 14-28): load the
environment, create the FastAPI app, construct the one process-wide
`OpenSearchDocumentStore` handle.  Recorded as the sequence of capability
constructions performed before any request is served. -/
def startup_events : List InitEvent := [InitEvent.storeInit]

/-- The `ask_document` handler instrumented to record the capability
constructor calls its body performs: `BM25Retriever(document_store)` at
src/app.py line 79 and `FARMReader(model, use_gpu=True)` at line 80, in
textual order, freshly on every call. -/
def ask_document_trace (document_store : DocumentStore) (query : Query) :
    HttpResponse × List InitEvent :=
  (ask_document document_store query,
   [InitEvent.retrieverInit, InitEvent.readerInit])

/-- Helper: a list all of whose members fail the predicate contributes
nothing to a `find?` over an appended list. -/
theorem find?_append_of_none {α : Type} {p : α → Bool} {l₁ l₂ : List α}
    (h : l₁.find? p = none) : (l₁ ++ l₂).find? p = l₂.find? p := by
  rw [List.find?_append, h, Option.none_or]

/-- C5: the health-check operation returns status 200 with the fixed body
`{"status": "ok"}` for every request, regardless of store state or
configuration. -/
theorem health_always_ok :
    ∀ st : DocumentStore,
      handle st Request.health =
        (st, { status := 200, body := Body.statusOk }) :=
  fun _ => rfl

/-- C6: for every save request, the save operation writes exactly one
document to the store and returns status 201 with body `{"id": <string>}`,
the string being the identifier of the newly written document (assigned on
write, always present on output). -/
theorem save_writes_one_and_returns_id :
    ∀ (st : DocumentStore) (document : Document),
      save_document st document =
        ({ docs := st.docs ++
             [{ id := toString st.nextId, content := document.content,
                meta_name := document.name }],
           nextId := st.nextId + 1 },
         { status := 201, body := Body.idOf (toString st.nextId) }) := by
  intro st document
  rfl

/-- C3: for every identifier, get-by-id returns status 404 with body
`{"error": "Document not found"}` if and only if the store lookup returns
null; otherwise it returns status 200 with the stored record. -/
theorem get_by_id_404_iff_absent :
    ∀ (st : DocumentStore) (document_id : String),
      (get_document st document_id =
          { status := 404, body := Body.errorMsg "Document not found" } ↔
        st.get_document_by_id document_id = none) ∧
      (∀ d, st.get_document_by_id document_id = some d →
        get_document st document_id =
          { status := 200, body := Body.document d }) := by
  intro st i
  constructor
  · unfold get_document
    cases h : st.get_document_by_id i with
    | none => simp
    | some d => simp
  · intro d h
    unfold get_document
    rw [h]

/-- C3 witness: a concrete empty store yields 404 on a random identifier,
and a concrete one-record store yields 200 with that record. -/
theorem get_by_id_404_iff_absent_witness :
    get_document { docs := [], nextId := 0 } "unused-id" =
      { status := 404, body := Body.errorMsg "Document not found" } ∧
    get_document
        { docs := [{ id := "0", content := "x", meta_name := none }],
          nextId := 1 } "0" =
      { status := 200,
        body := Body.document { id := "0", content := "x", meta_name := none } } :=
  ⟨(get_by_id_404_iff_absent { docs := [], nextId := 0 } "unused-id").1.mpr rfl,
   (get_by_id_404_iff_absent
      { docs := [{ id := "0", content := "x", meta_name := none }],
        nextId := 1 } "0").2
     { id := "0", content := "x", meta_name := none } rfl⟩

/-- C2 counterexample: when the store reports an empty (but non-null) result,
list-all returns status 200 with the empty sequence, not the 404 error
response the claim demands for an empty result. -/
theorem list_all_empty_result_not_404 :
    get_all_document (some []) =
      { status := 200, body := Body.documents [] } ∧
    get_all_document (some []) ≠
      { status := 404, body := Body.errorMsg "Documents not found" } := by
  decide

/-- C2 (amended): list-all returns status 404 with body
`{"error": "Documents not found"}` if and only if the store reports a null
result; any non-null result, including the empty sequence, is returned with
status 200. -/
theorem list_all_404_iff_null :
    ∀ documents : Option (List HaystackDocument),
      (get_all_document documents =
          { status := 404, body := Body.errorMsg "Documents not found" } ↔
        documents = none) ∧
      (∀ ds, documents = some ds →
        get_all_document documents =
          { status := 200, body := Body.documents ds }) := by
  intro documents
  constructor
  · unfold get_all_document
    cases documents with
    | none => simp
    | some ds => simp
  · intro ds h
    subst h
    rfl

/-- C2 witness: the null reply yields the 404 error, a concrete non-null
reply is returned with status 200. -/
theorem list_all_404_iff_null_witness :
    get_all_document none =
      { status := 404, body := Body.errorMsg "Documents not found" } ∧
    get_all_document (some [{ id := "0", content := "x", meta_name := none }]) =
      { status := 200,
        body := Body.documents
          [{ id := "0", content := "x", meta_name := none }] } :=
  ⟨(list_all_404_iff_null none).1.mpr rfl,
   (list_all_404_iff_null
      (some [{ id := "0", content := "x", meta_name := none }])).2
     [{ id := "0", content := "x", meta_name := none }] rfl⟩

/-- C10: search returns status 200 with the store's raw query reply passed
through unchanged — a null reply is serialized as the null body, never as a
structured 404 error. -/
theorem search_passthrough :
    ∀ documents : Option (List HaystackDocument),
      (search_document documents).status = 200 ∧
      search_document none = { status := 200, body := Body.null } ∧
      (∀ ds, documents = some ds →
        search_document documents =
          { status := 200, body := Body.documents ds }) := by
  intro documents
  refine ⟨rfl, rfl, ?_⟩
  intro ds h
  subst h
  rfl

/-- C10 witness: the pass-through evaluated at the empty concrete reply. -/
theorem search_passthrough_witness :
    (search_document (some [])).status = 200 ∧
    search_document none = { status := 200, body := Body.null } ∧
    search_document (some []) = { status := 200, body := Body.documents [] } :=
  ⟨(search_passthrough (some [])).1, (search_passthrough (some [])).2.1,
   (search_passthrough (some [])).2.2 [] rfl⟩

/-- C1: for every submitted document (any content, with or without a name),
whenever the identifier the store assigns is not already taken — the store's
contract for an opaque fresh identifier — a get-by-id with the identifier
returned by save yields status 200 with a record whose content equals the
submitted content and whose name metadata equals the submitted name, null
when the name was omitted. -/
theorem save_then_get_returns_submitted :
    ∀ (st : DocumentStore) (document : Document),
      (∀ d ∈ st.docs, d.id ≠ toString st.nextId) →
      ∃ i : String,
        (save_document st document).2 = { status := 201, body := Body.idOf i } ∧
        ∃ d : HaystackDocument,
          ((save_document st document).1).get_document_by_id i = some d ∧
          get_document (save_document st document).1 i =
            { status := 200, body := Body.document d } ∧
          d.content = document.content ∧ d.meta_name = document.name := by
  intro st document h
  refine ⟨toString st.nextId, rfl, ?_⟩
  have hnone :
      st.docs.find? (fun d => d.id == toString st.nextId) = none := by
    rw [List.find?_eq_none]
    intro x hx
    simpa using h x hx
  have hfind :
      ((save_document st document).1).get_document_by_id (toString st.nextId) =
        some { id := toString st.nextId, content := document.content,
               meta_name := document.name } := by
    show ((st.docs ++
        [({ id := toString st.nextId, content := document.content,
            meta_name := document.name } : HaystackDocument)]).find?
          (fun d => d.id == toString st.nextId)) = _
    rw [find?_append_of_none hnone]
    simp
  refine ⟨_, hfind, ?_, rfl, rfl⟩
  unfold get_document
  rw [hfind]

/-- C1 witness: saving the spec's concrete example document into the empty
store and reading it back by the returned identifier. -/
theorem save_then_get_returns_submitted_witness :
    ∃ i : String,
      (save_document { docs := [], nextId := 0 }
          { name := some "doc1",
            content := "The capital of France is Paris." }).2 =
        { status := 201, body := Body.idOf i } ∧
      ∃ d : HaystackDocument,
        ((save_document { docs := [], nextId := 0 }
          { name := some "doc1",
            content := "The capital of France is Paris." }).1).get_document_by_id
            i = some d ∧
        get_document (save_document { docs := [], nextId := 0 }
            { name := some "doc1",
              content := "The capital of France is Paris." }).1 i =
          { status := 200, body := Body.document d } ∧
        d.content = "The capital of France is Paris." ∧
        d.meta_name = some "doc1" :=
  save_then_get_returns_submitted { docs := [], nextId := 0 }
    { name := some "doc1", content := "The capital of France is Paris." }
    (by simp)

/-- C4: for every question, the ask operation is exactly the composition of
the retrieval capability at the fixed constant `top_k = 10` with the reading
capability at the fixed constant `top_k = 1`, returning the serialized
answers with status 200, a sequence of length at most 1. -/
theorem ask_pipeline_steps_and_length :
    ∀ (st : DocumentStore) (query : Query),
      ask_document st query =
        { status := 200,
          body := Body.answers
            ((FARMReader.predict query.question
                (BM25Retriever.retrieve st query.question 10) 1).map
              Answer.to_dict) } ∧
      ((FARMReader.predict query.question
          (BM25Retriever.retrieve st query.question 10) 1).map
        Answer.to_dict).length ≤ 1 := by
  intro st query
  refine ⟨rfl, ?_⟩
  simp [FARMReader.predict]

/-- C7: every persisted record survives every operation unchanged: the five
read operations leave the store state exactly as it was, and save only
appends one new record, never modifying or deleting a record already
present. -/
theorem store_immutable_frame :
    ∀ (st : DocumentStore) (r : Request),
      (∀ d ∈ st.docs, d ∈ ((handle st r).1).docs) ∧
      ((∀ document : Document, r ≠ Request.saveDoc document) →
        (handle st r).1 = st) ∧
      (∀ document : Document,
        ((handle st (Request.saveDoc document)).1).docs =
          st.docs ++
            [{ id := toString st.nextId, content := document.content,
               meta_name := document.name }]) := by
  intro st r
  refine ⟨?_, ?_, ?_⟩
  · intro d hd
    cases r with
    | saveDoc document =>
        simp only [handle, save_document, DocumentStore.write_documents]
        exact List.mem_append_left _ hd
    | health => exact hd
    | getDoc i => exact hd
    | listAll => exact hd
    | search q => exact hd
    | ask q => exact hd
  · intro h
    cases r with
    | saveDoc document => exact absurd rfl (h document)
    | health => rfl
    | getDoc i => rfl
    | listAll => rfl
    | search q => rfl
    | ask q => rfl
  · intro document
    rfl

/-- C7 witness: a concrete non-save request (list-all on a one-record store)
leaves the store state unchanged, and a concrete save appends exactly one
record after the existing one. -/
theorem store_immutable_frame_witness :
    (handle { docs := [{ id := "0", content := "x", meta_name := none }],
              nextId := 1 } Request.listAll).1 =
      { docs := [{ id := "0", content := "x", meta_name := none }],
        nextId := 1 } ∧
    ((handle { docs := [{ id := "0", content := "x", meta_name := none }],
               nextId := 1 }
        (Request.saveDoc { name := none, content := "y" })).1).docs =
      [{ id := "0", content := "x", meta_name := none }] ++
        [{ id := "1", content := "y", meta_name := none }] :=
  ⟨(store_immutable_frame
      { docs := [{ id := "0", content := "x", meta_name := none }],
        nextId := 1 } Request.listAll).2.1 (fun _ => by simp),
   (store_immutable_frame
      { docs := [{ id := "0", content := "x", meta_name := none }],
        nextId := 1 } Request.listAll).2.2
     { name := none, content := "y" }⟩

/-- C8: no semantic validation is performed: a save request whose content is
the empty string is accepted (status 201) and written to the store like any
other document, and an ask request whose question is the empty string is
processed normally (status 200). -/
theorem no_semantic_validation :
    ∀ st : DocumentStore,
      ((save_document st { name := none, content := "" }).2).status = 201 ∧
      ((save_document st { name := none, content := "" }).1).docs =
        st.docs ++ [{ id := toString st.nextId, content := "",
                      meta_name := none }] ∧
      (ask_document st { question := "" }).status = 200 := by
  intro st
  exact ⟨rfl, rfl, rfl⟩

/-- C9: on every ask request the handler constructs the retriever and the
reader freshly within that request — its construction trace contains exactly
one instantiation of each — while the startup trace, which constructs only
the process-wide store handle, contains neither. -/
theorem capabilities_per_request :
    ∀ (st : DocumentStore) (query : Query),
      (ask_document_trace st query).2 =
        [InitEvent.retrieverInit, InitEvent.readerInit] ∧
      (ask_document_trace st query).2.count InitEvent.retrieverInit = 1 ∧
      (ask_document_trace st query).2.count InitEvent.readerInit = 1 ∧
      InitEvent.retrieverInit ∉ startup_events ∧
      InitEvent.readerInit ∉ startup_events := by
  intro st query
  exact ⟨rfl, rfl, rfl, by decide, by decide⟩

end App
